import Mathlib

set_option maxRecDepth 16384

/-!
Verification development for the vision-explorer2 backend
(`src/backend/main.py`, `src/backend/models.py`, `src/backend/vision_llm.py`).

The development shallowly embeds the per-connection dispatch core:

* JSON values (`Json`) model the Python values produced by `json.loads` and
  consumed by `websocket.send_json`.
* Python exceptions relevant to the control flow are modelled by the sum type
  `PyExc`, classified exactly as the `except` clauses in the source classify
  them (`json.JSONDecodeError` is a subclass of `ValueError`, and pydantic's
  `ValidationError` is a subclass of `ValueError`, so the catch tuple
  `(json.JSONDecodeError, ValueError, KeyError)` is `ValueError ∪ KeyError`).
* The Anthropic network call `_call_once` is an external collaborator: each
  attempt either returns a parsed JSON value or raises, so a run of the
  provider is an oracle `call : Nat → CallResult` giving the outcome of the
  n-th attempt.  Likewise `websocket.send_json` either atomically delivers a
  whole message (one ASGI send event / one websocket text frame) or raises,
  so outbound transport behaviour is an oracle `send : Nat → Option PyExc`
  giving the outcome of the n-th send attempt of the unit.
* `call_vision_llm` and `process_request` are translated statement by
  statement from the source, threading those oracles.
* The dispatcher loop of `enrich` (`main.py`) is an event-driven state
  machine over the in-flight task set, with task completion events
  interleaved arbitrarily with frame receipts, and the `finally` block
  embedded as cancel-all / gather(return_exceptions=True) / set emptied.
-/

/-- JSON values, as produced by Python's `json.loads`: `null`, booleans,
ints, floats (modelled as rationals), strings, arrays and objects
(key/value lists). -/
inductive Json where
  | null : Json
  | bool : Bool → Json
  | int : Int → Json
  | num : Rat → Json
  | str : String → Json
  | arr : List Json → Json
  | obj : List (String × Json) → Json
deriving Repr

/-- Field lookup in a JSON object (Python `dict[key]` on the dict produced by
`json.loads`; `json.loads` keeps the last duplicate key, but no duplicate
keys occur in any value this development builds). -/
def Json.lookup (v : Json) (k : String) : Option Json :=
  match v with
  | .obj kvs => kvs.lookup k
  | _ => none

/-- Python exception classes that steer the control flow of the backend,
one constructor per class the source's `except` clauses distinguish.
`valueError` covers `ValueError` and its subclasses `json.JSONDecodeError`
and pydantic `ValidationError`; `otherExc` covers any other `Exception`
subclass (e.g. the Anthropic SDK's transport/timeout errors), tagged by
class name. -/
inductive PyExc where
  | valueError : PyExc
  | keyError : PyExc
  | runtimeError : PyExc
  | webSocketDisconnect : PyExc
  | cancelledError : PyExc
  | otherExc : String → PyExc
deriving DecidableEq, Repr

/-- Exactly the exceptions caught by
`except (json.JSONDecodeError, ValueError, KeyError)` in `call_vision_llm`
(vision_llm.py line 153/158): `json.JSONDecodeError ⊆ ValueError`, so the
tuple collapses to ValueError-or-KeyError. -/
def isContentFormatError : PyExc → Bool
  | .valueError => true
  | .keyError => true
  | _ => false

/-- Outcome of one awaited `_call_once` attempt: a parsed JSON value
(`json.loads` of the stripped model text), or a raised exception. -/
inductive CallResult where
  | ok : Json → CallResult
  | raise : PyExc → CallResult
deriving Repr

/-- The `FALLBACK_RESPONSE` lambda of vision_llm.py lines 8-28: a pure
function of the YOLO label. -/
def FALLBACK_RESPONSE (yolo_label : String) : Json :=
  .obj
    [("identification", .obj
        [("name", .str yolo_label),
         ("brand", .null),
         ("model", .null),
         ("color", .str "unknown"),
         ("category", .str yolo_label),
         ("description", .str yolo_label)]),
     ("enrichment", .obj
        [("summary", .str ""),
         ("price_estimate", .obj
            [("range_low", .str ""),
             ("range_high", .str ""),
             ("currency", .str "USD"),
             ("note", .str "")]),
         ("specs", .obj []),
         ("search_query", .str yolo_label)])]

/-- Result of `call_vision_llm`: the value returned or exception raised,
together with how many provider attempts (`_call_once` calls) were made. -/
structure LLMOutcome where
  result : CallResult
  calls : Nat
deriving Repr

/-- vision_llm.py lines 150-166, statement by statement: try the first
attempt, catching only content-format errors; retry once under the same
catch; otherwise return `FALLBACK_RESPONSE yolo_label`.  Any exception that
is not a content-format error (including `asyncio.CancelledError`, which is
a `BaseException` and so passes both `except` clauses) propagates without a
retry. -/
def call_vision_llm (yolo_label : String) (call : Nat → CallResult) : LLMOutcome :=
  match call 0 with
  | .ok v => ⟨.ok v, 1⟩
  | .raise e =>
    if isContentFormatError e then
      match call 1 with
      | .ok v => ⟨.ok v, 2⟩
      | .raise e2 =>
        if isContentFormatError e2 then
          ⟨.ok (FALLBACK_RESPONSE yolo_label), 2⟩
        else
          ⟨.raise e2, 2⟩
    else
      ⟨.raise e, 1⟩

/-- models.py lines 4-8: the inbound request schema. `confidence` is a
float, modelled as a rational. -/
structure EnrichmentRequest where
  trackId : Int
  label : String
  confidence : Rat
  cropBase64 : String
deriving DecidableEq, Repr

/-- models.py `Identification`. -/
structure Identification where
  name : String
  brand : Option String
  model : Option String
  color : String
  category : String
  description : String
deriving DecidableEq, Repr

/-- models.py `PriceEstimate`. -/
structure PriceEstimate where
  range_low : String
  range_high : String
  currency : String
  note : String
deriving DecidableEq, Repr

/-- models.py `Enrichment`; `specs : dict[str, str]` is a key/value list. -/
structure Enrichment where
  summary : String
  price_estimate : PriceEstimate
  specs : List (String × String)
  search_query : String
deriving DecidableEq, Repr

/-- The payload part of models.py `EnrichmentResponse` (everything except
`trackId`): what pydantic validated out of the provider's dict. -/
structure EnrichmentResult where
  identification : Identification
  enrichment : Enrichment
deriving DecidableEq, Repr

/-- Pydantic validation of a `str` field: the value must be a JSON string.
(Pydantic lax-mode coercions of non-string scalars are elided; no theorem
below feeds a coercible non-string into a `str` field.) -/
def parseStrField : Json → Option String
  | .str s => some s
  | _ => none

/-- Pydantic validation of a `str | None` field. -/
def parseOptStrField : Json → Option (Option String)
  | .null => some none
  | .str s => some (some s)
  | _ => none

/-- Value of a non-empty all-digit character list. -/
def digitsVal (cs : List Char) : Option Nat :=
  if cs ≠ [] ∧ cs.all (fun c => c.isDigit) then
    some (cs.foldl (fun n c => 10 * n + (c.toNat - 48)) 0)
  else none

/-- Pydantic lax coercion of a string to an integer: an optional sign
followed by digits.  (Exotic spellings — exponents, padded strings,
float-syntax strings — are elided; no theorem below depends on a
string-typed numeric field.) -/
def parseIntString (s : String) : Option Int :=
  match s.toList with
  | '-' :: rest => (digitsVal rest).map (fun n => -(n : Int))
  | '+' :: rest => (digitsVal rest).map (fun n => (n : Int))
  | cs => (digitsVal cs).map (fun n => (n : Int))

/-- Pydantic lax coercion of a string to a float: an optional sign,
digits, and an optional fractional part (exponent forms elided as
above). -/
def parseFloatString (s : String) : Option Rat :=
  let unsignedVal : List Char → Option Rat := fun cs =>
    match cs.splitOn '.' with
    | [ds] => (digitsVal ds).map (fun n => (n : Rat))
    | [ds, fs] =>
      match digitsVal ds, digitsVal fs with
      | some n, some f => some ((n : Rat) + (f : Rat) / ((10 : Rat) ^ fs.length))
      | _, _ => none
    | _ => none
  match s.toList with
  | '-' :: rest => (unsignedVal rest).map (fun q => -q)
  | '+' :: rest => unsignedVal rest
  | cs => unsignedVal cs

/-- Pydantic validation of an `int` field in lax mode: a JSON int, an
integral float, or an integer-spelled string coerce; booleans and
everything else are rejected. -/
def parseIntField : Json → Option Int
  | .int n => some n
  | .num q => if q.den = 1 then some q.num else none
  | .str s => parseIntString s
  | _ => none

/-- Pydantic validation of a `float` field in lax mode: a float, an int
(coerced), or a numeric string coerce; booleans and everything else are
rejected. -/
def parseNumField : Json → Option Rat
  | .num q => some q
  | .int n => some (n : Rat)
  | .str s => parseFloatString s
  | _ => none

/-- Pydantic validation of the entries of a `dict[str, str]`: every value
must be a string. -/
def parseSpecsList : List (String × Json) → Option (List (String × String))
  | [] => some []
  | kv :: rest =>
    match parseStrField kv.2, parseSpecsList rest with
    | some s, some r => some ((kv.1, s) :: r)
    | _, _ => none

/-- Pydantic validation of `dict[str, str]`: a JSON object all of whose
values are strings. -/
def parseSpecsField : Json → Option (List (String × String))
  | .obj kvs => parseSpecsList kvs
  | _ => none

/-- Required field of a pydantic model: present in the input object, and
valid for the field's parser.  Extra keys of the object are ignored
(pydantic's default `extra="ignore"`; none of the models in models.py set
`extra="forbid"`). -/
def reqField {α : Type} (v : Json) (k : String) (p : Json → Option α) : Option α :=
  (v.lookup k).bind p

/-- Pydantic validation `EnrichmentRequest(**data)` (main.py line 60) on
an OBJECT frame: all four fields required, extra keys ignored, invalid
values fail.  Fails (`none`) exactly when pydantic raises
`ValidationError` (a `ValueError`, caught by the read loop's
`except (ValueError, ValidationError)` clause).  The model only ever
applies this to objects: on a non-object JSON value, `**data` raises
`TypeError` instead — which that `except` clause does NOT catch — so the
read loop dies; `stepEvent` models that as the fatal branch, not through
this function (the non-object case below is unreachable from
`stepEvent`). -/
def parseEnrichmentRequest (v : Json) : Option EnrichmentRequest :=
  match v with
  | .obj _ => do
    let tid ← reqField v "trackId" parseIntField
    let lbl ← reqField v "label" parseStrField
    let conf ← reqField v "confidence" parseNumField
    let crop ← reqField v "cropBase64" parseStrField
    pure ⟨tid, lbl, conf, crop⟩
  | _ => none

/-- Pydantic validation of the nested `Identification` model. -/
def parseIdentification (v : Json) : Option Identification :=
  match v with
  | .obj _ => do
    let name ← reqField v "name" parseStrField
    let brand ← reqField v "brand" parseOptStrField
    let model ← reqField v "model" parseOptStrField
    let color ← reqField v "color" parseStrField
    let category ← reqField v "category" parseStrField
    let descr ← reqField v "description" parseStrField
    pure ⟨name, brand, model, color, category, descr⟩
  | _ => none

/-- Pydantic validation of the nested `PriceEstimate` model. -/
def parsePriceEstimate (v : Json) : Option PriceEstimate :=
  match v with
  | .obj _ => do
    let lo ← reqField v "range_low" parseStrField
    let hi ← reqField v "range_high" parseStrField
    let cur ← reqField v "currency" parseStrField
    let note ← reqField v "note" parseStrField
    pure ⟨lo, hi, cur, note⟩
  | _ => none

/-- Pydantic validation of the nested `Enrichment` model. -/
def parseEnrichment (v : Json) : Option Enrichment :=
  match v with
  | .obj _ => do
    let summary ← reqField v "summary" parseStrField
    let pe ← reqField v "price_estimate" parsePriceEstimate
    let specs ← reqField v "specs" parseSpecsField
    let sq ← reqField v "search_query" parseStrField
    pure ⟨summary, pe, specs, sq⟩
  | _ => none

/-- `EnrichmentResponse(trackId=..., **result)` without the `trackId`
part: validates that `result` is a dict holding a valid `identification`
and a valid `enrichment` (extra keys ignored).  `none` exactly when the
constructor call in main.py line 41-44 raises (pydantic `ValidationError`
for a dict with missing/invalid fields, or `TypeError` for a non-dict
after `**`). -/
def parseResult (v : Json) : Option EnrichmentResult :=
  match v with
  | .obj _ => do
    let ident ← reqField v "identification" parseIdentification
    let enr ← reqField v "enrichment" parseEnrichment
    pure ⟨ident, enr⟩
  | _ => none

/-- `model_dump()` of `Identification`. -/
def identificationJson (i : Identification) : Json :=
  .obj
    [("name", .str i.name),
     ("brand", match i.brand with | some b => .str b | none => .null),
     ("model", match i.model with | some m => .str m | none => .null),
     ("color", .str i.color),
     ("category", .str i.category),
     ("description", .str i.description)]

/-- `model_dump()` of `PriceEstimate`. -/
def priceEstimateJson (p : PriceEstimate) : Json :=
  .obj
    [("range_low", .str p.range_low),
     ("range_high", .str p.range_high),
     ("currency", .str p.currency),
     ("note", .str p.note)]

/-- `model_dump()` of `Enrichment`. -/
def enrichmentJson (e : Enrichment) : Json :=
  .obj
    [("summary", .str e.summary),
     ("price_estimate", priceEstimateJson e.price_estimate),
     ("specs", .obj (e.specs.map (fun kv => (kv.1, .str kv.2)))),
     ("search_query", .str e.search_query)]

/-- The field list of the payload as a JSON object (the dict the provider
would have to return for the response to be forwarded unchanged). -/
def resultFields (r : EnrichmentResult) : List (String × Json) :=
  [("identification", identificationJson r.identification),
   ("enrichment", enrichmentJson r.enrichment)]

/-- The canonical JSON rendering of a structured result. -/
def resultJson (r : EnrichmentResult) : Json :=
  .obj (resultFields r)

/-- `EnrichmentResponse(trackId=..., **result).model_dump()` (main.py
lines 41-45): the outbound success message. -/
def responseJson (trackId : Int) (r : EnrichmentResult) : Json :=
  .obj (("trackId", .int trackId) :: resultFields r)

/-- The outbound error marker `{"error": True, "trackId": ...}` of
main.py line 52. -/
def errorMarkerJson (trackId : Int) : Json :=
  .obj [("error", .bool true), ("trackId", .int trackId)]

/-- Observable outcome of one `process_request` task: the messages it
delivered to the outbound stream (in order), and the exception, if any,
escaping the coroutine (only possible for exceptions its `except` clauses
do not catch, i.e. `CancelledError` or an exception raised inside a
handler). -/
structure ProcOutput where
  writes : List Json
  raised : Option PyExc
deriving Repr

/-- The two `except` arms of `process_request` (main.py lines 46-54),
entered with the exception `e` that escaped the `try` body and with `k`
send attempts already made: `WebSocketDisconnect`/`RuntimeError` are
passed over silently; `CancelledError` is a `BaseException` and escapes;
any other `Exception` is logged and answered with the error marker, whose
own send failure is suppressed only for
`WebSocketDisconnect`/`RuntimeError`. -/
def handleExc (req : EnrichmentRequest) (send : Nat → Option PyExc)
    (k : Nat) (e : PyExc) : ProcOutput :=
  if e = .webSocketDisconnect ∨ e = .runtimeError then
    ⟨[], none⟩
  else if e = .cancelledError then
    ⟨[], some .cancelledError⟩
  else
    match send k with
    | none => ⟨[errorMarkerJson req.trackId], none⟩
    | some e2 =>
      if e2 = .webSocketDisconnect ∨ e2 = .runtimeError then
        ⟨[], none⟩
      else
        ⟨[], some e2⟩

/-- main.py lines 38-54, statement by statement: await
`call_vision_llm`, validate into `EnrichmentResponse`, send its
`model_dump()`; dispatch any raised exception to the `except` arms.
`send 0` is the unit's first send attempt, `send 1` its second (the error
marker after a failed success-send).  A send attempt delivers its whole
message iff the oracle yields `none`. -/
def process_request (req : EnrichmentRequest) (call : Nat → CallResult)
    (send : Nat → Option PyExc) : ProcOutput :=
  match (call_vision_llm req.label call).result with
  | .raise e => handleExc req send 0 e
  | .ok v =>
    match parseResult v with
    | none => handleExc req send 0 .valueError
    | some r =>
      match send 0 with
      | none => ⟨[responseJson req.trackId r], none⟩
      | some e => handleExc req send 1 e

/-- One unit of work as launched by `asyncio.create_task(process_request request)`
(main.py line 67): the decoded request plus this unit's provider-call and
send oracles. -/
structure UnitRun where
  req : EnrichmentRequest
  call : Nat → CallResult
  send : Nat → Option PyExc

/-- Run one unit to completion. -/
def runUnit (u : UnitRun) : ProcOutput :=
  process_request u.req u.call u.send

/-- What `asyncio.gather(*tasks, return_exceptions=True)` records for one
task: its value, or the exception it ended with, absorbed as a value. -/
inductive GatherResult where
  | value : ProcOutput → GatherResult
  | exc : PyExc → GatherResult
deriving Repr

/-- Terminal status of a finished task as `gather(return_exceptions=True)`
collects it. -/
def taskEnd (o : ProcOutput) : GatherResult :=
  match o.raised with
  | some e => .exc e
  | none => .value o

/-- One inbound websocket frame as seen by `websocket.receive_json`
(main.py line 59): either a decoded JSON value, or a frame on which
`receive_json` raises `json.JSONDecodeError` (a `ValueError`). -/
inductive Frame where
  | json : Json → Frame
  | malformed : Frame

/-- Events the dispatcher's read loop observes, in arbitrary order: a frame
receipt, or the done-callback of task `id` firing (`tasks.discard`,
main.py line 69).  Completion order is unrelated to spawn order. -/
inductive Event where
  | recv : Frame → Event
  | complete : Nat → Event

/-- Dispatcher state for one connection: the in-flight task id set, the ids
whose done callbacks have fired, every spawned unit (id paired with its
decoded request, ids assigned in spawn order), and whether the read loop
has died on an uncaught exception (`dead`): a non-object JSON frame makes
`EnrichmentRequest(**data)` raise `TypeError`, which neither
`except (ValueError, ValidationError)` nor `except WebSocketDisconnect`
catches, so the loop exits and the connection is torn down. -/
structure SessionState where
  inflight : List Nat
  completed : List Nat
  spawned : List (Nat × EnrichmentRequest)
  dead : Bool
deriving Repr

/-- Session state right after `websocket.accept()`: nothing spawned, loop
alive. -/
def initialSession : SessionState :=
  ⟨[], [], [], false⟩

/-- One iteration of the read loop (main.py lines 57-69) or one
done-callback.  While the loop is alive: a frame on which `receive_json`
raises (malformed) or on which pydantic validation of an object fails is
logged and skipped (`except (ValueError, ValidationError): continue`); a
valid object frame spawns a task and registers it in the in-flight set; a
frame that is valid JSON but NOT an object makes `**data` raise
`TypeError`, uncaught by that clause, so the loop dies (`dead := true`)
and reads no further frame.  A completion event is a done callback
(`tasks.discard`): it fires once per task, also during the drain after the
loop has exited. -/
def stepEvent (s : SessionState) : Event → SessionState
  | .recv f =>
    if s.dead then s
    else
      match f with
      | .malformed => s
      | .json (.obj kvs) =>
        match parseEnrichmentRequest (.obj kvs) with
        | none => s
        | some req =>
          { s with
              inflight := s.inflight ++ [s.spawned.length],
              spawned := s.spawned ++ [(s.spawned.length, req)] }
      | .json _ => { s with dead := true }
  | .complete id =>
    if id ∈ s.inflight then
      { s with inflight := s.inflight.erase id, completed := s.completed ++ [id] }
    else s

/-- The read loop over a finite prefix of events. -/
def runEvents (s : SessionState) (evs : List Event) : SessionState :=
  evs.foldl stepEvent s

/-- The `finally` block of `enrich` (main.py lines 73-78) at disconnect:
cancel every task still in the in-flight set and
`await asyncio.gather(*tasks, return_exceptions=True)` — every task is
awaited and its error, if any, is absorbed as a `GatherResult`; the set is
then empty (each done callback has discarded its task) before `enrich`
returns.  `run` gives each task's terminal output (cancellation shows up in
it through the task's oracles). -/
def teardown (s : SessionState) (run : Nat → ProcOutput) :
    SessionState × List GatherResult :=
  ({ s with inflight := [] }, s.inflight.map (fun i => taskEnd (run i)))

/-- Escape one character as `json.dumps` would inside a string literal
(the outbound payload characters need only quote, backslash and newline). -/
def escapeChar (c : Char) : List Char :=
  if c = '"' then ['\\', '"']
  else if c = '\\' then ['\\', '\\']
  else if c = '\n' then ['\\', 'n']
  else [c]

/-- Escape a string body as `json.dumps` would. -/
def escapeString (s : String) : String :=
  String.mk ((s.toList.map escapeChar).flatten)

/-- Opening brace character (written by code point to keep it out of
string literals). -/
def lbrace : Char := Char.ofNat 123

/-- Closing brace character. -/
def rbrace : Char := Char.ofNat 125

mutual

/-- Serialization of a JSON value to websocket text, as
`websocket.send_json` does via `json.dumps` (default separators).  Only
the fragments reachable from outbound messages matter for fidelity:
objects of null/bool/int/string values. -/
def jsonEncode : Json → String
  | .null => "null"
  | .bool b => if b then "true" else "false"
  | .int n => toString n
  | .num q => toString q
  | .str s => "\"" ++ escapeString s ++ "\""
  | .arr xs => "[" ++ encodeItems xs ++ "]"
  | .obj kvs => String.mk [lbrace] ++ encodeFields kvs ++ String.mk [rbrace]

/-- Comma-separated array items. -/
def encodeItems : List Json → String
  | [] => ""
  | [x] => jsonEncode x
  | x :: y :: xs => jsonEncode x ++ ", " ++ encodeItems (y :: xs)

/-- Comma-separated object fields. -/
def encodeFields : List (String × Json) → String
  | [] => ""
  | [kv] => "\"" ++ escapeString kv.1 ++ "\": " ++ jsonEncode kv.2
  | kv :: kv2 :: kvs =>
    "\"" ++ escapeString kv.1 ++ "\": " ++ jsonEncode kv.2 ++ ", " ++
      encodeFields (kv2 :: kvs)

end

/-- One atomic scheduler step of a processing unit under asyncio's
cooperative scheduling: an internal step (`tau`: the provider await, a
retry, validation), or the delivery of one whole outbound message — a
single `await websocket.send_json(...)`, which hands the complete message
to the transport as one ASGI event / one websocket text frame. -/
inductive Step where
  | tau : Step
  | wr : Json → Step

/-- The observable step sequence of one finished unit: its suspension
point(s) followed by the messages it delivered, in order. -/
def unitSteps (o : ProcOutput) : List Step :=
  .tau :: o.writes.map .wr

/-- The steps taken by unit `i` within a trace of tagged steps. -/
def proj (i : Nat) (t : List (Nat × Step)) : List Step :=
  (t.filter (fun p => p.1 == i)).map Prod.snd

/-- A trace `t` is an interleaving of the per-unit step sequences `us`
exactly when every step of `t` is tagged by some unit and, per unit, the
trace restricted to that unit is its step sequence — the formal content of
"one sequential reader plus N concurrently scheduled units, multiplexed by
a cooperative scheduler" (spec section 5): steps of different units may
alternate arbitrarily, but per-unit program order is preserved. -/
def IsInterleaving (us : List (List Step)) (t : List (Nat × Step)) : Prop :=
  (∀ p ∈ t, p.1 < us.length) ∧
    ∀ i : Fin us.length, proj i t = us.get i

/-- The messages appearing in a trace, tagged by their writing unit, in
delivery order. -/
def wrEvents (t : List (Nat × Step)) : List (Nat × Json) :=
  t.filterMap (fun p =>
    match p.2 with
    | .wr m => some (p.1, m)
    | .tau => none)

/-- The messages extracted from one unit's step sequence. -/
def stepsWrites (l : List Step) : List Json :=
  l.filterMap (fun s =>
    match s with
    | .wr m => some m
    | .tau => none)

/-- The messages unit `i` delivered in a trace. -/
def writesBy (i : Nat) (t : List (Nat × Step)) : List Json :=
  stepsWrites (proj i t)

/-- The encoded bytes of one tagged message. -/
def encTagged (p : Nat × Json) : List (Nat × Char) :=
  (jsonEncode p.2).toList.map (fun c => (p.1, c))

/-- The outbound character stream of a trace, each character tagged by the
unit that wrote it: messages are handed to the transport whole, in trace
order. -/
def byteStream (t : List (Nat × Step)) : List (Nat × Char) :=
  ((wrEvents t).map encTagged).flatten

/-- A unit run on which nothing went wrong externally: the transport
accepted every send, and the provider outcome surviving
`call_vision_llm` was not a disconnect-class or cancellation exception. -/
def cleanRun (u : UnitRun) : Prop :=
  (∀ k, u.send k = none) ∧
    match (call_vision_llm u.req.label u.call).result with
    | .raise e =>
      e ≠ .webSocketDisconnect ∧ e ≠ .runtimeError ∧ e ≠ .cancelledError
    | .ok _ => True

/-- Does an outbound message carry this `trackId` field? -/
def hasTrackId (tid : Int) (m : Json) : Bool :=
  match m.lookup "trackId" with
  | some (.int n) => n == tid
  | _ => false

def PRODUCT_PROMPT : String :=
  "YOLO detected this as: \"\x7blabel\x7d\".\n\nIdentify the specific item in this image and provide enrichment data. Return ONLY a JSON object with this exact structure:\n\n\x7b\x7b\n  \"identification\": \x7b\x7b\n    \"name\": \"Full product/item name (be as specific as possible)\",\n    \"brand\": \"Brand name if identifiable, else null\",\n    \"model\": \"Model name/number if identifiable, else null\",\n    \"color\": \"Primary color\",\n    \"category\": \"General category (e.g. drinkware, electronics, furniture, clothing)\",\n    \"description\": \"One-sentence description\"\n  \x7d\x7d,\n  \"enrichment\": \x7b\x7b\n    \"summary\": \"2-3 sentence informative summary about this item or product line. Include what it\x27s known for, key features, or interesting context.\",\n    \"price_estimate\": \x7b\x7b\n      \"range_low\": \"$XX\",\n      \"range_high\": \"$XX\",\n      \"currency\": \"USD\",\n      \"note\": \"Brief note on pricing (e.g. \x27retail price\x27 or \x27varies by size\x27)\"\n    \x7d\x7d,\n    \"specs\": \x7b\x7b\n      \"key1\": \"value1\",\n      \"key2\": \"value2\"\n    \x7d\x7d,\n    \"search_query\": \"Best search query to find this product online\"\n  \x7d\x7d\n\x7d\x7d\n\nFor the \"specs\" field, include 3-5 key specifications relevant to the item category. Examples:\n- Drinkware: material, capacity, insulation_type, dishwasher_safe\n- Electronics: processor, ram, storage, display_size, battery_life\n- Furniture: material, dimensions, weight_capacity\n- Books: author, genre, page_count, year_published\n- Clothing: material, fit_type, care_instructions\n\nIf you cannot identify the specific product, provide your best guess based on what you see. For price estimates, give a reasonable range for this type of item.\n\nReturn raw JSON only, no markdown fences."

def PERSON_PROMPT : String :=
  "YOLO detected a person in this image.\n\nDescribe what this person is doing, their context, and any notable objects they are interacting with. Focus on ACTIVITY and CONTEXT, not clothing details. Return ONLY a JSON object with this exact structure:\n\n\x7b\x7b\n  \"identification\": \x7b\x7b\n    \"name\": \"Brief description of the person (e.g. \x27Person reading a book\x27, \x27Person on a phone call\x27)\",\n    \"brand\": null,\n    \"model\": null,\n    \"color\": \"Dominant color of their appearance\",\n    \"category\": \"person\",\n    \"description\": \"One-sentence description of what they are doing and their immediate context\"\n  \x7d\x7d,\n  \"enrichment\": \x7b\x7b\n    \"summary\": \"2-3 sentences describing the scene: what the person is doing, what objects or environment surround them, and any interesting context about the activity.\",\n    \"price_estimate\": \x7b\x7b\n      \"range_low\": \"\",\n      \"range_high\": \"\",\n      \"currency\": \"USD\",\n      \"note\": \"\"\n    \x7d\x7d,\n    \"specs\": \x7b\x7b\n      \"activity\": \"Primary activity (e.g. working, reading, talking, eating)\",\n      \"posture\": \"Standing, sitting, walking, etc.\",\n      \"setting\": \"Indoor/outdoor, type of environment\",\n      \"interacting_with\": \"Notable objects or people they are engaging with\",\n      \"mood\": \"General energy/mood of the scene (e.g. focused, relaxed, active)\"\n    \x7d\x7d,\n    \"search_query\": \"Search query related to the person\x27s primary activity or context\"\n  \x7d\x7d\n\x7d\x7d\n\nReturn raw JSON only, no markdown fences."

/-- vision_llm.py line 101: the labels routed to the person-aware prompt. -/
def PERSON_LABELS : List String := ["person"]

/-- The replacement-field token of the product template: the characters
of "label" enclosed in braces, as Python `str.format` scans for it. -/
def labelField : List Char := "label".toList ++ [rbrace]

/-- Python `str.format(label=...)`, restricted to the features the two
templates above use: a doubled opening or closing brace is an escaped
literal brace, and the field token for "label" is replaced by the argument.
Structural recursion on a fuel bounded by the template length (each step
consumes at least one character, so the fuel never runs out on the actual
argument). -/
def pyFormatAux (label : String) : Nat → List Char → List Char
  | 0, l => l
  | _ + 1, [] => []
  | fuel + 1, c :: rest =>
    if c = lbrace ∧ rest.take 1 = [lbrace] then
      lbrace :: pyFormatAux label fuel (rest.drop 1)
    else if c = rbrace ∧ rest.take 1 = [rbrace] then
      rbrace :: pyFormatAux label fuel (rest.drop 1)
    else if c = lbrace ∧ rest.take 6 = labelField then
      label.toList ++ pyFormatAux label fuel (rest.drop 6)
    else
      c :: pyFormatAux label fuel rest

/-- `template.format(label=label)` as applied in `_get_prompt`. -/
def pyFormat (template label : String) : String :=
  String.mk (pyFormatAux label template.length template.toList)

/-- vision_llm.py lines 104-111 (`_get_prompt`): the person-aware prompt,
unformatted, for labels in `PERSON_LABELS`; otherwise the product prompt
with the label substituted.  A pure function of the label alone. -/
def _get_prompt (yolo_label : String) : String :=
  if yolo_label ∈ PERSON_LABELS then PERSON_PROMPT
  else pyFormat PRODUCT_PROMPT yolo_label

/-- Executable substring test (`needle` occurs contiguously in `hay`). -/
def containsSub (hay needle : String) : Bool :=
  hay.toList.tails.any (fun t => needle.toList.isPrefixOf t)

theorem aux_call_ok (label : String) (call : Nat → CallResult) (v : Json)
    (h : call 0 = .ok v) : call_vision_llm label call = ⟨.ok v, 1⟩ := by
  unfold call_vision_llm
  rw [h]

theorem aux_call_hard (label : String) (call : Nat → CallResult) (e : PyExc)
    (h : call 0 = .raise e) (hf : isContentFormatError e = false) :
    call_vision_llm label call = ⟨.raise e, 1⟩ := by
  unfold call_vision_llm
  rw [h]
  simp [hf]

theorem aux_handleExc_marker (req : EnrichmentRequest) (send : Nat → Option PyExc)
    (k : Nat) (e : PyExc) (h1 : e ≠ .webSocketDisconnect) (h2 : e ≠ .runtimeError)
    (h3 : e ≠ .cancelledError) (hs : send k = none) :
    handleExc req send k e = ⟨[errorMarkerJson req.trackId], none⟩ := by
  unfold handleExc
  rw [if_neg (by simp [h1, h2]), if_neg h3, hs]

theorem aux_handleExc_len (req : EnrichmentRequest) (send : Nat → Option PyExc)
    (k : Nat) (e : PyExc) : (handleExc req send k e).writes.length ≤ 1 := by
  unfold handleExc
  split
  · simp
  split
  · simp
  split
  · simp
  split <;> simp

theorem aux_proc_len (req : EnrichmentRequest) (call : Nat → CallResult)
    (send : Nat → Option PyExc) :
    (process_request req call send).writes.length ≤ 1 := by
  unfold process_request
  split
  · exact aux_handleExc_len ..
  split
  · exact aux_handleExc_len ..
  split
  · simp
  · exact aux_handleExc_len ..

theorem aux_specsList_roundtrip (specs : List (String × String)) :
    parseSpecsList (specs.map (fun kv => (kv.1, Json.str kv.2))) = some specs := by
  induction specs with
  | nil => rfl
  | cons kv rest ih => simp [parseSpecsList, parseStrField, ih]

theorem aux_parseSpecs_roundtrip (specs : List (String × String)) :
    parseSpecsField (.obj (specs.map (fun kv => (kv.1, Json.str kv.2)))) = some specs := by
  simp [parseSpecsField, aux_specsList_roundtrip]

theorem aux_parseIdentification_roundtrip (i : Identification) :
    parseIdentification (identificationJson i) = some i := by
  obtain ⟨name, brand, model, color, category, descr⟩ := i
  cases brand <;> cases model <;> rfl

theorem aux_parsePriceEstimate_roundtrip (p : PriceEstimate) :
    parsePriceEstimate (priceEstimateJson p) = some p := by
  obtain ⟨lo, hi, cur, note⟩ := p
  rfl

theorem aux_parseEnrichment_roundtrip (e : Enrichment) :
    parseEnrichment (enrichmentJson e) = some e := by
  obtain ⟨summary, pe, specs, sq⟩ := e
  simp [parseEnrichment, enrichmentJson, reqField, Json.lookup, List.lookup,
    parseStrField, aux_parsePriceEstimate_roundtrip, aux_parseSpecs_roundtrip]

theorem aux_parseResult_roundtrip (r : EnrichmentResult) :
    parseResult (resultJson r) = some r := by
  obtain ⟨ident, enr⟩ := r
  simp [parseResult, resultJson, resultFields, reqField, Json.lookup, List.lookup,
    aux_parseIdentification_roundtrip, aux_parseEnrichment_roundtrip]

theorem aux_hasTrackId_response (tid tid2 : Int) (r : EnrichmentResult) :
    hasTrackId tid (responseJson tid2 r) = (tid2 == tid) := rfl

theorem aux_hasTrackId_marker (tid tid2 : Int) :
    hasTrackId tid (errorMarkerJson tid2) = (tid2 == tid) := rfl

theorem aux_handleExc_shape (req : EnrichmentRequest) (send : Nat → Option PyExc)
    (k : Nat) (e : PyExc) (m : Json) (hm : m ∈ (handleExc req send k e).writes) :
    m = errorMarkerJson req.trackId := by
  unfold handleExc at hm
  split at hm
  · simp at hm
  split at hm
  · simp at hm
  split at hm
  · simp at hm
    exact hm
  split at hm <;> simp at hm

theorem aux_proc_shape (req : EnrichmentRequest) (call : Nat → CallResult)
    (send : Nat → Option PyExc) (m : Json)
    (hm : m ∈ (process_request req call send).writes) :
    (∃ r, m = responseJson req.trackId r) ∨ m = errorMarkerJson req.trackId := by
  unfold process_request at hm
  split at hm
  · exact Or.inr (aux_handleExc_shape _ _ _ _ _ hm)
  split at hm
  · exact Or.inr (aux_handleExc_shape _ _ _ _ _ hm)
  split at hm
  · simp at hm
    exact Or.inl ⟨_, hm⟩
  · exact Or.inr (aux_handleExc_shape _ _ _ _ _ hm)

theorem aux_writes_tid (req : EnrichmentRequest) (call : Nat → CallResult)
    (send : Nat → Option PyExc) (m : Json) (tid : Int)
    (hm : m ∈ (process_request req call send).writes) :
    hasTrackId tid m = (req.trackId == tid) := by
  rcases aux_proc_shape req call send m hm with ⟨r, rfl⟩ | rfl
  · exact aux_hasTrackId_response ..
  · exact aux_hasTrackId_marker ..

theorem aux_filter_absent (units : List UnitRun) (tid : Int)
    (h : ∀ u ∈ units, u.req.trackId ≠ tid) :
    ((units.map (fun u => (runUnit u).writes)).flatten).filter (hasTrackId tid) = [] := by
  induction units with
  | nil => rfl
  | cons u rest ih =>
    simp only [List.map_cons, List.flatten_cons, List.filter_append]
    have h1 : (runUnit u).writes.filter (hasTrackId tid) = [] := by
      apply List.filter_eq_nil_iff.2
      intro m hm
      rw [aux_writes_tid u.req u.call u.send m tid hm]
      simp [h u (List.mem_cons_self u rest)]
    rw [h1, ih (fun u2 hu2 => h u2 (List.mem_cons_of_mem _ hu2))]
    rfl

theorem aux_count_le_one (units : List UnitRun) (tid : Int)
    (h : (units.map (fun u => u.req.trackId)).Nodup) :
    (((units.map (fun u => (runUnit u).writes)).flatten).filter (hasTrackId tid)).length ≤ 1 := by
  induction units with
  | nil => simp
  | cons u rest ih =>
    simp only [List.map_cons, List.nodup_cons, List.mem_map] at h
    obtain ⟨hnot, hrest⟩ := h
    simp only [List.map_cons, List.flatten_cons, List.filter_append, List.length_append]
    by_cases htid : u.req.trackId = tid
    · have habs : ∀ u2 ∈ rest, u2.req.trackId ≠ tid := by
        intro u2 hu2 heq
        exact hnot ⟨u2, hu2, heq.trans htid.symm⟩
      rw [aux_filter_absent rest tid habs]
      calc ((runUnit u).writes.filter (hasTrackId tid)).length + ([] : List Json).length
          ≤ (runUnit u).writes.length + 0 := by
            simp [List.length_filter_le]
        _ ≤ 1 := by simpa using aux_proc_len u.req u.call u.send
    · have h1 : (runUnit u).writes.filter (hasTrackId tid) = [] := by
        apply List.filter_eq_nil_iff.2
        intro m hm
        rw [aux_writes_tid u.req u.call u.send m tid hm]
        simp [htid]
      rw [h1]
      simpa using ih hrest

theorem aux_clean_one (u : UnitRun) (hc : cleanRun u) :
    (runUnit u).writes.length = 1 := by
  obtain ⟨hsend, hres⟩ := hc
  unfold runUnit process_request
  split
  next e heq =>
    rw [heq] at hres
    obtain ⟨h1, h2, h3⟩ := hres
    rw [aux_handleExc_marker u.req u.send 0 e h1 h2 h3 (hsend 0)]
    rfl
  next v heq =>
    split
    · rw [aux_handleExc_marker u.req u.send 0 .valueError (by simp) (by simp)
        (by simp) (hsend 0)]
      rfl
    · rw [hsend 0]
      rfl

theorem aux_stepsWrites_unitSteps (o : ProcOutput) :
    stepsWrites (unitSteps o) = o.writes := by
  unfold stepsWrites unitSteps
  rw [List.filterMap_cons]
  simp only []
  induction o.writes with
  | nil => rfl
  | cons m rest ih => simpa [List.filterMap_cons] using ih

theorem aux_writesBy (units : List UnitRun) (t : List (Nat × Step))
    (h : IsInterleaving (units.map (fun u => unitSteps (runUnit u))) t)
    (i : Fin units.length) :
    writesBy i.1 t = (runUnit (units.get i)).writes := by
  obtain ⟨_, hproj⟩ := h
  have hlen : (units.map (fun u => unitSteps (runUnit u))).length = units.length := by
    simp
  have hi : (i : Nat) < (units.map (fun u => unitSteps (runUnit u))).length := by
    rw [hlen]; exact i.2
  have := hproj ⟨i.1, hi⟩
  unfold writesBy
  rw [this]
  rw [List.get_map]
  exact aux_stepsWrites_unitSteps _

theorem aux_contiguous (t : List (Nat × Step)) (p : Nat × Json)
    (hp : p ∈ wrEvents t) :
    ∃ pre post, byteStream t = pre ++ encTagged p ++ post := by
  obtain ⟨l1, l2, hsplit⟩ := List.append_of_mem hp
  refine ⟨(l1.map encTagged).flatten, (l2.map encTagged).flatten, ?_⟩
  unfold byteStream
  rw [hsplit]
  simp

theorem aux_step_inv (s : SessionState) (ev : Event)
    (h : (s.inflight : Multiset Nat) + ↑s.completed = ↑(s.spawned.map Prod.fst)) :
    ((stepEvent s ev).inflight : Multiset Nat) + ↑(stepEvent s ev).completed
      = ↑((stepEvent s ev).spawned.map Prod.fst) := by
  rcases ev with f | id
  · by_cases hd : s.dead
    · simpa [stepEvent, hd] using h
    · rcases f with v | _
      · cases v with
        | null => simpa [stepEvent, hd] using h
        | bool b => simpa [stepEvent, hd] using h
        | int n => simpa [stepEvent, hd] using h
        | num q => simpa [stepEvent, hd] using h
        | str s2 => simpa [stepEvent, hd] using h
        | arr xs => simpa [stepEvent, hd] using h
        | obj kvs =>
          rcases hp : parseEnrichmentRequest (.obj kvs) with _ | req
          · simpa [stepEvent, hd, hp] using h
          · simp only [stepEvent, hd, hp, Bool.false_eq_true, if_false,
              List.map_append, List.map_cons, List.map_nil]
            rw [← Multiset.coe_add, ← Multiset.coe_add, add_right_comm, h,
              Multiset.coe_add]
      · simpa [stepEvent, hd] using h
  · by_cases hmem : id ∈ s.inflight
    · simp only [stepEvent, if_pos hmem]
      rw [← Multiset.coe_add, ← add_assoc, add_right_comm, ← Multiset.coe_erase,
        add_comm ((s.inflight : Multiset Nat).erase id) (([id] : List Nat) : Multiset Nat),
        Multiset.coe_singleton, Multiset.singleton_add,
        Multiset.cons_erase (Multiset.mem_coe.2 hmem), h]
    · simpa [stepEvent, if_neg hmem] using h

theorem aux_session_inv (evs : List Event) (s : SessionState)
    (h : (s.inflight : Multiset Nat) + ↑s.completed = ↑(s.spawned.map Prod.fst)) :
    ((runEvents s evs).inflight : Multiset Nat) + ↑(runEvents s evs).completed
      = ↑((runEvents s evs).spawned.map Prod.fst) := by
  induction evs generalizing s with
  | nil => exact h
  | cons ev rest ih =>
    have hfold : runEvents s (ev :: rest) = runEvents (stepEvent s ev) rest := rfl
    rw [hfold]
    exact ih _ (aux_step_inv s ev h)

theorem aux_call_retry_cancelled (label : String) (call : Nat → CallResult)
    (e0 : PyExc) (h0 : call 0 = .raise e0) (hf : isContentFormatError e0 = true)
    (h1 : call 1 = .raise .cancelledError) :
    call_vision_llm label call = ⟨.raise .cancelledError, 2⟩ := by
  unfold call_vision_llm
  rw [h0]
  have hc : isContentFormatError .cancelledError = false := rfl
  simp [hf, h1, hc]

theorem aux_cancel_result (req : EnrichmentRequest) (call : Nat → CallResult)
    (send : Nat → Option PyExc)
    (h : (call_vision_llm req.label call).result = .raise .cancelledError) :
    process_request req call send = ⟨[], some .cancelledError⟩ := by
  unfold process_request
  rw [h]
  rfl

theorem aux_missing_key_parse_none (kvs : List (String × Json))
    (h : kvs.lookup "trackId" = none ∨ kvs.lookup "label" = none ∨
      kvs.lookup "confidence" = none ∨ kvs.lookup "cropBase64" = none) :
    parseEnrichmentRequest (.obj kvs) = none := by
  unfold parseEnrichmentRequest reqField Json.lookup
  rcases h with h | h | h | h
  · simp [h]
  · cases h1 : kvs.lookup "trackId" with
    | none => simp [h1]
    | some jv =>
      cases h2 : parseIntField jv with
      | none => simp [h1, h2]
      | some tid => simp [h1, h2, h]
  · cases h1 : kvs.lookup "trackId" with
    | none => simp [h1]
    | some jv =>
      cases h2 : parseIntField jv with
      | none => simp [h1, h2]
      | some tid =>
        cases h3 : kvs.lookup "label" with
        | none => simp [h1, h2, h3]
        | some jl =>
          cases h4 : parseStrField jl with
          | none => simp [h1, h2, h3, h4]
          | some lbl => simp [h1, h2, h3, h4, h]
  · cases h1 : kvs.lookup "trackId" with
    | none => simp [h1]
    | some jv =>
      cases h2 : parseIntField jv with
      | none => simp [h1, h2]
      | some tid =>
        cases h3 : kvs.lookup "label" with
        | none => simp [h1, h2, h3]
        | some jl =>
          cases h4 : parseStrField jl with
          | none => simp [h1, h2, h3, h4]
          | some lbl =>
            cases h5 : kvs.lookup "confidence" with
            | none => simp [h1, h2, h3, h4, h5]
            | some jc =>
              cases h6 : parseNumField jc with
              | none => simp [h1, h2, h3, h4, h5, h6]
              | some conf => simp [h1, h2, h3, h4, h5, h6, h]

/-- C1: if both provider attempts raise a content-format error
(JSON parse failure, ValueError, or KeyError), `call_vision_llm` makes
exactly two provider calls, raises nothing, and returns exactly the
deterministic fallback payload of the request's label (the
`FALLBACK_RESPONSE` object: name/category/description = label,
brand/model null, color "unknown", empty summary and price fields with
currency "USD", empty specs, search query = label). -/
theorem c1_double_content_error_fallback (label : String)
    (call : Nat → CallResult) (e1 e2 : PyExc)
    (h0 : call 0 = .raise e1) (h1 : isContentFormatError e1 = true)
    (h2 : call 1 = .raise e2) (h3 : isContentFormatError e2 = true) :
    call_vision_llm label call = ⟨.ok (FALLBACK_RESPONSE label), 2⟩ := by
  unfold call_vision_llm
  rw [h0]
  simp [h1, h2, h3]

/-- C1 witness: a run whose two attempts raise `json.JSONDecodeError`
(a `ValueError`) and `KeyError` yields the fallback for label "mug" in
exactly two calls. -/
theorem c1_witness :
    call_vision_llm "mug"
        (fun n => if n = 0 then .raise .valueError else .raise .keyError)
      = ⟨.ok (FALLBACK_RESPONSE "mug"), 2⟩ :=
  c1_double_content_error_fallback "mug" _ .valueError .keyError rfl rfl rfl rfl

/-- C3 counterexample: a provider result that parses as JSON but is
missing the expected "enrichment" key is NOT retried (one provider call)
and IS surfaced to the caller as the error marker: the
`EnrichmentResponse(**result)` constructor raises in `process_request`,
outside the retry loop of `call_vision_llm`, so the generic
`except Exception` arm answers `{error: true, trackId}`.  This refutes the
claim that a missing expected key is recovered via retry-then-fallback and
never surfaced as an error marker. -/
theorem c3_missing_key_surfaces_marker :
    process_request ⟨7, "mug", 1, "crop"⟩
        (fun _ => .ok (Json.obj [("identification", Json.obj [])]))
        (fun _ => none)
      = ⟨[errorMarkerJson 7], none⟩ ∧
    (call_vision_llm "mug"
        (fun _ => .ok (Json.obj [("identification", Json.obj [])]))).calls = 1 :=
  ⟨rfl, rfl⟩

/-- C3 (amended): a structured provider result missing an expected
identification/enrichment key passes `call_vision_llm` unretried (exactly
one provider call); the pydantic validation failure in the processing unit
is then answered with the per-trackId error marker — it is not recovered by
the retry-then-fallback policy. -/
theorem c3_missing_key_not_retried (req : EnrichmentRequest)
    (call : Nat → CallResult) (send : Nat → Option PyExc) (v : Json)
    (h0 : call 0 = .ok v) (hv : parseResult v = none) (hs : send 0 = none) :
    process_request req call send = ⟨[errorMarkerJson req.trackId], none⟩ ∧
    (call_vision_llm req.label call).calls = 1 := by
  have hllm := aux_call_ok req.label call v h0
  constructor
  · unfold process_request
    rw [hllm]
    simp [hv,
      aux_handleExc_marker req send 0 .valueError (by simp) (by simp) (by simp) hs]
  · rw [hllm]

/-- C3 witness: a concrete result whose "enrichment" key is absent ends as
the error marker for trackId 9 after a single provider call. -/
theorem c3_witness :
    process_request ⟨9, "cup", 1, "img"⟩
        (fun _ => .ok (Json.obj [("identification", Json.null)]))
        (fun _ => none)
      = ⟨[errorMarkerJson 9], none⟩ ∧
    (call_vision_llm "cup"
        (fun _ => .ok (Json.obj [("identification", Json.null)]))).calls = 1 :=
  c3_missing_key_not_retried ⟨9, "cup", 1, "img"⟩ _ _
    (Json.obj [("identification", Json.null)]) rfl rfl rfl

/-- C4 counterexample: a provider call that raises `RuntimeError` — an
unexpected, non-content-format exception — produces NO outbound message at
all: the `except (WebSocketDisconnect, RuntimeError)` arm of
`process_request` (meant for "client already gone") also covers the
provider call, so no `{error: true, trackId}` marker is sent.  This refutes
"for every non-content-format hard error ... the outbound message is
exactly {error: true, trackId}". -/
theorem c4_runtime_error_suppressed :
    process_request ⟨9, "mug", 1, "crop"⟩
        (fun _ => .raise .runtimeError) (fun _ => none)
      = ⟨[], none⟩ := rfl

/-- C4 (amended): a non-content-format hard provider error other than
`WebSocketDisconnect`/`RuntimeError` (those are treated as "client gone"
and suppressed) and other than cancellation is not retried — exactly one
provider call — and the unit's only outbound message is exactly the error
marker `{error: true, trackId}`; no exception escapes the unit (the error
is contained, so the dispatcher loop, which takes no input from unit
outcomes, keeps the connection open and continues). -/
theorem c4_hard_error_exact_marker (req : EnrichmentRequest)
    (call : Nat → CallResult) (send : Nat → Option PyExc) (e : PyExc)
    (h0 : call 0 = .raise e) (hf : isContentFormatError e = false)
    (h1 : e ≠ .webSocketDisconnect) (h2 : e ≠ .runtimeError)
    (h3 : e ≠ .cancelledError) (hs : send 0 = none) :
    call_vision_llm req.label call = ⟨.raise e, 1⟩ ∧
    process_request req call send = ⟨[errorMarkerJson req.trackId], none⟩ := by
  have hllm := aux_call_hard req.label call e h0 hf
  refine ⟨hllm, ?_⟩
  unfold process_request
  rw [hllm]
  simp [aux_handleExc_marker req send 0 e h1 h2 h3 hs]

/-- C4 witness: an Anthropic transport error (`APIConnectionError`, not a
ValueError/KeyError) is not retried and is answered by exactly the error
marker for trackId 5. -/
theorem c4_witness :
    call_vision_llm "mug" (fun _ => .raise (.otherExc "APIConnectionError"))
      = ⟨.raise (.otherExc "APIConnectionError"), 1⟩ ∧
    process_request ⟨5, "mug", 1, "crop"⟩
        (fun _ => .raise (.otherExc "APIConnectionError")) (fun _ => none)
      = ⟨[errorMarkerJson 5], none⟩ :=
  c4_hard_error_exact_marker ⟨5, "mug", 1, "crop"⟩ _ _ (.otherExc "APIConnectionError")
    rfl rfl (by decide) (by decide) (by decide) rfl

/-- C6: a cancellation signal firing while the provider call OR the retry
is outstanding (the task's `CancelledError` surfacing at the first
`await _call_once`, or at the second after a content-format failure)
passes both `except` clauses of `call_vision_llm` â no further provider
call is started â and both `except` arms of `process_request`, so the unit
terminates with the cancellation and writes nothing; consequently K units
all cancelled before any provider call resolves produce zero outbound
writes and every one of them reaches a terminal state that
`gather(return_exceptions=True)` absorbs. -/
theorem c6_cancel_no_retry_no_write :
    (∀ (req : EnrichmentRequest) (call : Nat → CallResult)
        (send : Nat → Option PyExc),
      call 0 = .raise .cancelledError →
      process_request req call send = ⟨[], some .cancelledError⟩ ∧
      (call_vision_llm req.label call).calls = 1) ∧
    (∀ (req : EnrichmentRequest) (call : Nat → CallResult)
        (send : Nat → Option PyExc) (e0 : PyExc),
      call 0 = .raise e0 → isContentFormatError e0 = true →
      call 1 = .raise .cancelledError →
      process_request req call send = ⟨[], some .cancelledError⟩ ∧
      (call_vision_llm req.label call).calls = 2) ∧
    (∀ units : List UnitRun,
      (∀ u ∈ units, u.call 0 = .raise .cancelledError ∨
        ∃ e0, u.call 0 = .raise e0 ∧ isContentFormatError e0 = true ∧
          u.call 1 = .raise .cancelledError) →
      (units.map (fun u => (runUnit u).writes)).flatten = [] ∧
      units.map (fun u => taskEnd (runUnit u))
        = units.map (fun _ => GatherResult.exc .cancelledError)) := by
  have hres : ∀ (req : EnrichmentRequest) (call : Nat → CallResult),
      (call 0 = .raise .cancelledError ∨
        ∃ e0, call 0 = .raise e0 ∧ isContentFormatError e0 = true ∧
          call 1 = .raise .cancelledError) →
      (call_vision_llm req.label call).result = .raise .cancelledError := by
    intro req call h
    rcases h with h0 | ⟨e0, h0, hf, h1⟩
    · rw [aux_call_hard req.label call .cancelledError h0 rfl]
    · rw [aux_call_retry_cancelled req.label call e0 h0 hf h1]
  have hunit : ∀ (req : EnrichmentRequest) (call : Nat → CallResult)
      (send : Nat → Option PyExc),
      (call 0 = .raise .cancelledError ∨
        ∃ e0, call 0 = .raise e0 ∧ isContentFormatError e0 = true ∧
          call 1 = .raise .cancelledError) →
      process_request req call send = ⟨[], some .cancelledError⟩ :=
    fun req call send h => aux_cancel_result req call send (hres req call h)
  refine ⟨?_, ?_, ?_⟩
  · intro req call send h0
    refine ⟨hunit req call send (Or.inl h0), ?_⟩
    rw [aux_call_hard req.label call .cancelledError h0 rfl]
  · intro req call send e0 h0 hf h1
    refine ⟨hunit req call send (Or.inr ⟨e0, h0, hf, h1⟩), ?_⟩
    rw [aux_call_retry_cancelled req.label call e0 h0 hf h1]
  · intro units hall
    constructor
    · induction units with
      | nil => rfl
      | cons u rest ih =>
        have hu : (runUnit u).writes = [] := by
          have := hunit u.req u.call u.send (hall u (List.mem_cons_self u rest))
          unfold runUnit
          rw [this]
        simp only [List.map_cons, List.flatten_cons, hu, List.nil_append]
        exact ih (fun u2 hu2 => hall u2 (List.mem_cons_of_mem _ hu2))
    · induction units with
      | nil => rfl
      | cons u rest ih =>
        have hu : runUnit u = ⟨[], some .cancelledError⟩ :=
          hunit u.req u.call u.send (hall u (List.mem_cons_self u rest))
        simp only [List.map_cons, hu]
        rw [ih (fun u2 hu2 => hall u2 (List.mem_cons_of_mem _ hu2))]
        rfl

/-- C6 witness: two concurrent units â one cancelled at the first provider
attempt, one cancelled at the retry after a JSON parse failure â produce
zero outbound writes in total. -/
theorem c6_witness :
    (([⟨⟨1, "mug", 1, "a"⟩, fun _ => .raise .cancelledError, fun _ => none⟩,
       ⟨⟨2, "cup", 1, "b"⟩,
        fun n => if n = 0 then .raise .valueError else .raise .cancelledError,
        fun _ => some .webSocketDisconnect⟩] : List UnitRun).map
      (fun u => (runUnit u).writes)).flatten = [] :=
  (c6_cancel_no_retry_no_write.2.2 _ (by
    intro u hu
    simp only [List.mem_cons, List.mem_singleton] at hu
    rcases hu with rfl | rfl | h
    · exact Or.inl rfl
    · exact Or.inr ⟨.valueError, rfl, rfl, rfl⟩
    · cases h)).1

/-- C8: when the first provider attempt succeeds with a result in exactly
the expected structured shape, no retry occurs (one provider call) and the
unit's single outbound message is exactly the message whose field list is
`trackId` followed by the payload's own `identification` and `enrichment`
fields, verbatim. -/
theorem c8_first_success_verbatim (req : EnrichmentRequest)
    (call : Nat → CallResult) (send : Nat → Option PyExc) (r : EnrichmentResult)
    (h0 : call 0 = .ok (resultJson r)) (hs : send 0 = none) :
    call_vision_llm req.label call = ⟨.ok (resultJson r), 1⟩ ∧
    process_request req call send
      = ⟨[Json.obj (("trackId", .int req.trackId) :: resultFields r)], none⟩ := by
  have hllm := aux_call_ok req.label call _ h0
  refine ⟨hllm, ?_⟩
  unfold process_request
  rw [hllm]
  simp [aux_parseResult_roundtrip, hs, responseJson]

/-- C8 witness: a fully populated structured result returned on the first
attempt is forwarded untouched under trackId 7. -/
theorem c8_witness :
    call_vision_llm "cup" (fun _ => .ok (resultJson
        ⟨⟨"Stanley Quencher", some "Stanley", none, "green", "drinkware",
          "An insulated tumbler"⟩,
         ⟨"Popular insulated tumbler.", ⟨"$35", "$45", "USD", "retail"⟩,
          [("material", "steel"), ("capacity", "40oz")],
          "stanley quencher 40oz"⟩⟩))
      = ⟨.ok (resultJson
        ⟨⟨"Stanley Quencher", some "Stanley", none, "green", "drinkware",
          "An insulated tumbler"⟩,
         ⟨"Popular insulated tumbler.", ⟨"$35", "$45", "USD", "retail"⟩,
          [("material", "steel"), ("capacity", "40oz")],
          "stanley quencher 40oz"⟩⟩), 1⟩ ∧
    process_request ⟨7, "cup", 1, "crop"⟩ (fun _ => .ok (resultJson
        ⟨⟨"Stanley Quencher", some "Stanley", none, "green", "drinkware",
          "An insulated tumbler"⟩,
         ⟨"Popular insulated tumbler.", ⟨"$35", "$45", "USD", "retail"⟩,
          [("material", "steel"), ("capacity", "40oz")],
          "stanley quencher 40oz"⟩⟩)) (fun _ => none)
      = ⟨[Json.obj (("trackId", .int 7) :: resultFields
        ⟨⟨"Stanley Quencher", some "Stanley", none, "green", "drinkware",
          "An insulated tumbler"⟩,
         ⟨"Popular insulated tumbler.", ⟨"$35", "$45", "USD", "retail"⟩,
          [("material", "steel"), ("capacity", "40oz")],
          "stanley quencher 40oz"⟩⟩)], none⟩ :=
  c8_first_success_verbatim ⟨7, "cup", 1, "crop"⟩ _ _ _ rfl rfl

/-- C2: whatever frames arrive and in whatever order units complete, when
the connection closes the `finally` block leaves the in-flight set empty
before `enrich` returns (no entry outlives the connection), and
`gather(return_exceptions=True)` yields one absorbed terminal result for
every unit still in flight — while the invariant "in-flight plus
already-completed ids account exactly for every spawned unit" shows no
unit is leaked or double-tracked. -/
theorem c2_teardown_drains_inflight (evs : List Event) (run : Nat → ProcOutput) :
    (teardown (runEvents initialSession evs) run).1.inflight = [] ∧
    (teardown (runEvents initialSession evs) run).2
      = (runEvents initialSession evs).inflight.map (fun i => taskEnd (run i)) ∧
    ((runEvents initialSession evs).inflight : Multiset Nat)
        + ↑(runEvents initialSession evs).completed
      = ↑((runEvents initialSession evs).spawned.map Prod.fst) := by
  refine ⟨rfl, rfl, aux_session_inv evs initialSession ?_⟩
  rfl

/-- C5 counterexample: two frames the claim covers are not
dropped-with-connection-open.  First, a frame with all four schema fields
plus an EXTRA field is not dropped: pydantic's default `extra="ignore"`
(none of the models in models.py forbid extras) accepts it and the
dispatcher spawns a unit for it.  Second, a frame that is valid JSON but
not an object (here `[]`) does not leave the connection open:
`EnrichmentRequest(**data)` raises `TypeError`, uncaught by
`except (ValueError, ValidationError)`, so the read loop dies and a
subsequent valid frame on the same connection is never processed (nothing
spawned, session dead). -/
theorem c5_schema_mismatch_counterexample :
    (runEvents initialSession
        [.recv (.json (Json.obj [("trackId", .int 5), ("label", .str "mug"),
          ("confidence", .num 1), ("cropBase64", .str "x"),
          ("extra", .bool true)]))]).spawned.map Prod.snd
      = [⟨5, "mug", 1, "x"⟩] ∧
    runEvents initialSession
        [.recv (.json (Json.arr [])),
         .recv (.json (Json.obj [("trackId", .int 6), ("label", .str "cup"),
           ("confidence", .num 1), ("cropBase64", .str "y")]))]
      = ⟨[], [], [], true⟩ :=
  ⟨rfl, rfl⟩

/-- C5 (amended): an inbound frame that is malformed (so `receive_json`
raises `json.JSONDecodeError`, a `ValueError`) or is an object missing a
required field (so pydantic raises `ValidationError`) is logged and
skipped: the dispatcher state is exactly unchanged, no unit is spawned and
no outbound message can arise from it, and the whole session run equals
the run without that frame, so the connection stays open and every
subsequent valid frame is processed exactly as it would have been.  By
contrast a frame that is valid JSON but not an object is fatal: while the
loop is alive it sets the session dead (`TypeError` from `**data`, caught
by no clause of the read loop), and a dead loop reads no further frame —
the connection is torn down after the usual cancel-and-drain. -/
theorem c5_undecodable_frame_dropped :
    (∀ f : Frame,
      (f = .malformed ∨ ∃ kvs, f = .json (.obj kvs) ∧
        (kvs.lookup "trackId" = none ∨ kvs.lookup "label" = none ∨
          kvs.lookup "confidence" = none ∨ kvs.lookup "cropBase64" = none)) →
      (∀ s, stepEvent s (.recv f) = s) ∧
      (∀ evs1 evs2, runEvents initialSession (evs1 ++ .recv f :: evs2)
          = runEvents initialSession (evs1 ++ evs2))) ∧
    (∀ v : Json, (∀ kvs, v ≠ .obj kvs) →
      ∀ s : SessionState, s.dead = false →
        stepEvent s (.recv (.json v)) = { s with dead := true }) ∧
    (∀ (s : SessionState) (f : Frame), s.dead = true →
      stepEvent s (.recv f) = s) := by
  refine ⟨?_, ?_, ?_⟩
  · intro f hf
    have hstep : ∀ s, stepEvent s (.recv f) = s := by
      intro s
      rcases hf with rfl | ⟨kvs, rfl, hv⟩
      · simp [stepEvent]
      · simp [stepEvent, aux_missing_key_parse_none kvs hv]
    refine ⟨hstep, ?_⟩
    intro evs1 evs2
    unfold runEvents
    rw [List.foldl_append, List.foldl_append, List.foldl_cons, hstep]
  · intro v hv s hd
    cases v with
    | obj kvs => exact absurd rfl (hv kvs)
    | null => simp [stepEvent, hd]
    | bool b => simp [stepEvent, hd]
    | int n => simp [stepEvent, hd]
    | num q => simp [stepEvent, hd]
    | str s2 => simp [stepEvent, hd]
    | arr xs => simp [stepEvent, hd]
  · intro s f hd
    simp [stepEvent, hd]

/-- C5 witness: a malformed frame between two valid frames changes
nothing — the session that received it equals the session that never saw
it, with the valid frames still spawning their units. -/
theorem c5_witness :
    stepEvent initialSession (.recv .malformed) = initialSession ∧
    runEvents initialSession
        ([.recv (.json (Json.obj [("trackId", .int 1), ("label", .str "mug"),
            ("confidence", .num 1), ("cropBase64", .str "a")]))]
          ++ .recv .malformed ::
            [.recv (.json (Json.obj [("trackId", .int 2), ("label", .str "cup"),
              ("confidence", .num 1), ("cropBase64", .str "b")]))])
      = runEvents initialSession
          ([.recv (.json (Json.obj [("trackId", .int 1), ("label", .str "mug"),
              ("confidence", .num 1), ("cropBase64", .str "a")]))]
            ++ [.recv (.json (Json.obj [("trackId", .int 2), ("label", .str "cup"),
              ("confidence", .num 1), ("cropBase64", .str "b")]))]) :=
  ⟨(c5_undecodable_frame_dropped.1 .malformed (Or.inl rfl)).1 initialSession,
   (c5_undecodable_frame_dropped.1 .malformed (Or.inl rfl)).2 _ _⟩

/-- C7: a processing unit delivers at most one outbound message in every
execution — every combination of provider outcome, validation outcome and
send failures, including a first write attempt that itself raises — and
across any set of concurrently in-flight units with pairwise distinct
trackIds, at most one outbound message carries any given trackId. -/
theorem c7_at_most_one_message :
    (∀ (req : EnrichmentRequest) (call : Nat → CallResult)
        (send : Nat → Option PyExc),
      (process_request req call send).writes.length ≤ 1) ∧
    (∀ units : List UnitRun, (units.map (fun u => u.req.trackId)).Nodup →
      ∀ tid : Int,
        (((units.map (fun u => (runUnit u).writes)).flatten).filter
          (hasTrackId tid)).length ≤ 1) :=
  ⟨fun req call send => aux_proc_len req call send,
   fun units h tid => aux_count_le_one units tid h⟩

/-- C7 witness: two in-flight units with distinct trackIds — one whose
first write attempt raises a generic exception (so the marker is sent
instead), one succeeding — yield at most one message for trackId 1. -/
theorem c7_witness :
    ((([⟨⟨1, "mug", 1, "a"⟩, fun _ => .ok (FALLBACK_RESPONSE "mug"),
         fun k => if k = 0 then some (.otherExc "oops") else none⟩,
       ⟨⟨2, "cup", 1, "b"⟩, fun _ => .ok (FALLBACK_RESPONSE "cup"),
         fun _ => none⟩] : List UnitRun).map
        (fun u => (runUnit u).writes)).flatten.filter (hasTrackId 1)).length ≤ 1 :=
  c7_at_most_one_message.2 _ (by decide) 1

/-- C9 counterexample: a unit that is never cancelled but whose single
`send_json` raises `WebSocketDisconnect` performs zero writes, not exactly
one — refuting "each unit performs exactly one write per request unless
cancelled first". -/
theorem c9_transport_loss_zero_writes :
    process_request ⟨3, "mug", 1, "c"⟩
      (fun _ => .ok (FALLBACK_RESPONSE "mug"))
      (fun _ => some .webSocketDisconnect) = ⟨[], none⟩ := rfl

/-- C9 (amended): under asyncio's cooperative scheduling — every
interleaving of the units' atomic steps, with `send_json` handing each
whole message to the transport as one atomic event — the messages a unit
contributes to the trace are exactly its program-order writes, each unit
writes at most one message (exactly one when it is neither cancelled nor
hit by a disconnect-class exception from provider or transport), and in
the outbound character stream every message occupies one contiguous block:
writes from different in-flight units never interleave mid-message. -/
theorem c9_serialized_atomic_writes (units : List UnitRun)
    (t : List (Nat × Step))
    (h : IsInterleaving (units.map (fun u => unitSteps (runUnit u))) t) :
    (∀ i : Fin units.length,
      writesBy i.1 t = (runUnit (units.get i)).writes ∧
      (writesBy i.1 t).length ≤ 1) ∧
    (∀ p ∈ wrEvents t, ∃ pre post, byteStream t = pre ++ encTagged p ++ post) ∧
    (∀ i : Fin units.length, cleanRun (units.get i) →
      (writesBy i.1 t).length = 1) := by
  refine ⟨?_, fun p hp => aux_contiguous t p hp, ?_⟩
  · intro i
    have hw := aux_writesBy units t h i
    exact ⟨hw, by rw [hw]; exact aux_proc_len ..⟩
  · intro i hc
    rw [aux_writesBy units t h i]
    exact aux_clean_one _ hc

/-- C9 witness: two concurrent units whose steps interleave — the second
unit's message is delivered before the first unit's — still write at most
one message each. -/
theorem c9_witness :
    (writesBy 0 [(0, Step.tau), (1, Step.tau), (1, Step.wr (errorMarkerJson 2)),
      (0, Step.wr (responseJson 1
        ⟨⟨"mug", none, none, "unknown", "mug", "mug"⟩,
         ⟨"", ⟨"", "", "USD", ""⟩, [], "mug"⟩⟩))]).length ≤ 1 :=
  ((c9_serialized_atomic_writes
    [⟨⟨1, "mug", 1, "a"⟩, fun _ => .ok (FALLBACK_RESPONSE "mug"), fun _ => none⟩,
     ⟨⟨2, "person", 1, "b"⟩, fun _ => .raise (.otherExc "boom"), fun _ => none⟩]
    [(0, Step.tau), (1, Step.tau), (1, Step.wr (errorMarkerJson 2)),
      (0, Step.wr (responseJson 1
        ⟨⟨"mug", none, none, "unknown", "mug", "mug"⟩,
         ⟨"", ⟨"", "", "USD", ""⟩, [], "mug"⟩⟩))]
    ⟨by intro p hp; fin_cases hp <;> decide,
     by intro i; fin_cases i <;> rfl⟩).1 ⟨0, by decide⟩).2

/-- C10: the prompt sent to the provider is a pure function of the label
alone (`_get_prompt` takes nothing else): for the label "person" it is the
person-aware `PERSON_PROMPT`, used unformatted, whose text fixes category
to "person" and brand and model to null and asks for activity/context; for
every other label it is `PRODUCT_PROMPT` with that label substituted by
`str.format` (e.g. "mug" appears quoted in the formatted prompt). -/
theorem c10_prompt_selection :
    _get_prompt "person" = PERSON_PROMPT ∧
    (∀ l, l ≠ "person" → _get_prompt l = pyFormat PRODUCT_PROMPT l) ∧
    containsSub PERSON_PROMPT "\"category\": \"person\"" = true ∧
    containsSub PERSON_PROMPT "\"brand\": null" = true ∧
    containsSub PERSON_PROMPT "\"model\": null" = true ∧
    containsSub PERSON_PROMPT "ACTIVITY and CONTEXT" = true ∧
    containsSub (_get_prompt "mug") "\"mug\"" = true := by
  refine ⟨rfl, ?_, ?_, ?_, ?_, ?_, ?_⟩
  · intro l hl
    unfold _get_prompt PERSON_LABELS
    simp [hl]
  · decide
  · decide
  · decide
  · decide
  · decide

/-- C10 witness: the non-person label "mug" selects the formatted product
prompt. -/
theorem c10_witness :
    _get_prompt "mug" = pyFormat PRODUCT_PROMPT "mug" :=
  c10_prompt_selection.2.1 "mug" (by decide)
